import Mathlib

/-
Verification of the type-directed JSON-like serialization engine in
src/training-2018/examples/serialization_json.cpp.

The embedding models emission as a pure function producing the ordered list
of characters written, each tagged with the output channel the source code
actually names: the sink parameter os, or the global std::cout. The source
mixes the two (print_container, print_pointer and the field-label code in
print write to std::cout while the scalar paths write to os), so the channel
tag is part of the model. The compile-time dispatch chain of print
(lines 147-165) is modelled as a function on a record of the five boolean
traits the source computes, and makeNullValue (lines 73-85) as a function on
a small grammar of the C++ types the example instantiates it at.
-/

namespace SerializationJson

/-- The two output channels the source writes to: the ostream parameter os
(the Sink) and the global std::cout. -/
inductive Chan where
  | sink
  | cout
deriving DecidableEq, Repr

/-- The trace of one emission call: every character written, in order, tagged
with the channel it was written to. -/
abbrev Out := List (Chan × Char)

/-- Writing a string to one channel, character by character. -/
def emitTo (c : Chan) (s : String) : Out := s.data.map (fun ch => (c, ch))

/-- The values the engine renders: scalars (int, bool, string-like), sequences
(containers that are not string-like), nullable references (raw or smart
pointers and optionals, both reduced to their empty-or-dereferenceable state),
and self-describing aggregates (a list of named fields, in the order the
serialize hook of the example structs Foo, Bar, Baz emits them, separated by
the comma the hooks write). -/
inductive Value where
  | int (i : Int)
  | bool (b : Bool)
  | str (s : String)
  | seq (xs : List Value)
  | nullable (o : Option Value)
  | obj (fs : List (String × Value))

mutual

/-- The dispatch body of print (lines 147-165), after the field-name prefix:
a container that is not string-convertible goes to print_container
(lines 60-71: bracket to cout, each element via print with empty name, a comma
to cout after EVERY element, then backspace and closing bracket to cout);
a pointer-like value goes to print_pointer (lines 87-99: the token null to
cout when empty, else print of the dereferenced value with empty name);
a type with a serialize member gets braces written through the Writer, which
routes them through print_default to os, the hook emitting each named field
with comma separators that also go through the Writer to os (lines 155-161
and 168-206); everything else goes to print_default (lines 40-58: quotes
around string-convertible values, boolalpha tokens for bool, the plain
textual form otherwise, all to os). A call print(os, x, {}) with empty name
writes no prefix, so it equals the dispatch body alone. -/
def printVal : Value → Out
  | .int i => emitTo .sink (toString i)
  | .bool b => emitTo .sink (if b then "true" else "false")
  | .str s => emitTo .sink ("\"" ++ s ++ "\"")
  | .seq xs => emitTo .cout "[" ++ printSeqElems xs ++ emitTo .cout "\x08" ++ emitTo .cout "]"
  | .nullable none => emitTo .cout "null"
  | .nullable (some v) => printVal v
  | .obj fs => emitTo .sink "\x7b" ++ printFields fs ++ emitTo .sink "\x7d"

/-- The element loop of print_container (lines 65-69): print(os, x, {}),
then a comma to std::cout, for every element including the last. -/
def printSeqElems : List Value → Out
  | [] => []
  | x :: xs => printVal x ++ emitTo .cout "," ++ printSeqElems xs

/-- The field emissions a serialize hook performs through the Writer
(pattern of Foo, Bar, Baz, lines 168-206): each field via
print(os, value, name) - whose name prefix goes to std::cout, line 144 -
with a comma between consecutive fields written through the Writer, hence
via print_default to os. -/
def printFields : List (String × Value) → Out
  | [] => []
  | (n, v) :: fs =>
      (if n = "" then [] else emitTo .cout ("\"" ++ n ++ "\":")) ++ printVal v
        ++ (if fs.isEmpty then [] else emitTo .sink ",") ++ printFields fs

end

/-- print (lines 138-166): when the name is non-empty, write the quoted name
and a colon to std::cout (line 144), then dispatch on the type of the value. -/
def print (v : Value) (n : String) : Out :=
  (if n = "" then [] else emitTo .cout ("\"" ++ n ++ "\":")) ++ printVal v

/-- All characters written during a call, in order, regardless of channel:
what an observer sees when the sink passed in IS std::cout, as in main. -/
def allOut (o : Out) : String := ⟨o.map Prod.snd⟩

/-- The characters that arrive on the sink parameter os. -/
def sinkOut (o : Out) : String := ⟨(o.filter (fun p => p.1 = Chan.sink)).map Prod.snd⟩

/-- The characters that arrive on std::cout. -/
def coutOut (o : Out) : String := ⟨(o.filter (fun p => p.1 = Chan.cout)).map Prod.snd⟩

/-- The five boolean traits the source computes for a type T:
is_container (lines 8-15), std::is_convertible_v to std::string (line 147),
is_pointer_like (lines 17-24), std::is_pointer_v (line 151),
has_member_function_serialize (lines 26-34). -/
structure TypeTraits where
  is_container : Bool
  convertible_to_string : Bool
  is_pointer_like : Bool
  is_pointer : Bool
  has_serialize : Bool
deriving DecidableEq, Repr

/-- The four capability categories, named after the rendering strategy the
dispatch selects: sequence is print_container, nullableRef is print_pointer,
selfDescribing is the braced Writer block, scalar is print_default. -/
inductive Tag where
  | sequence
  | nullableRef
  | selfDescribing
  | scalar
deriving DecidableEq, Repr

/-- The if-constexpr chain of print (lines 147-165): container and not
string-convertible first, then pointer-like or raw pointer, then the
serialize member, then the print_default fallback. -/
def classify (t : TypeTraits) : Tag :=
  if t.is_container && !t.convertible_to_string then Tag.sequence
  else if t.is_pointer_like || t.is_pointer then Tag.nullableRef
  else if t.has_serialize then Tag.selfDescribing
  else Tag.scalar

/-- A grammar of the C++ types the example instantiates the engine at. -/
inductive CppType where
  | intT
  | boolT
  | stringT
  | vectorT (t : CppType)
  | optionalT (t : CppType)
  | rawPtrT (t : CppType)
  | uniquePtrT (t : CppType)
  | sharedPtrT (t : CppType)
  | structWithSerializeT
deriving DecidableEq, Repr

/-- The traits each C++ type has under the detection idioms of the source:
std::string has begin, end and a member iterator (so is_container holds) and
converts to std::string; std::vector is a container and does not convert to
string; std::optional, std::unique_ptr and std::shared_ptr all declare
member operator-> and operator* (so is_pointer_like holds); a raw pointer T*
satisfies std::is_pointer_v but has no member operators; the example structs
Foo, Bar, Baz declare a serialize member. -/
def cppTraits : CppType → TypeTraits
  | .intT => ⟨false, false, false, false, false⟩
  | .boolT => ⟨false, false, false, false, false⟩
  | .stringT => ⟨true, true, false, false, false⟩
  | .vectorT _ => ⟨true, false, false, false, false⟩
  | .optionalT _ => ⟨false, false, true, false, false⟩
  | .rawPtrT _ => ⟨false, false, false, true, false⟩
  | .uniquePtrT _ => ⟨false, false, true, false, false⟩
  | .sharedPtrT _ => ⟨false, false, true, false, false⟩
  | .structWithSerializeT => ⟨false, false, false, false, true⟩

/-- std::is_assignable_v of T from std::nullopt_t, per the C++ semantics of
the modelled types: only std::optional accepts assignment from std::nullopt;
raw and smart pointers and the scalar and aggregate types do not. -/
def assignableFromNullopt : CppType → Bool
  | .optionalT _ => true
  | _ => false

/-- The two empty-sentinel shapes makeNullValue can return: std::nullopt or
nullptr. -/
inductive Sentinel where
  | nulloptSentinel
  | nullptrSentinel
deriving DecidableEq, Repr

/-- makeNullValue (lines 73-85): if constexpr the type is assignable from
std::nullopt_t, return std::nullopt, otherwise return nullptr. The branch is
taken on the type alone, so the choice is a function of the type. -/
def makeNullValue (t : CppType) : Sentinel :=
  if assignableFromNullopt t then Sentinel.nulloptSentinel else Sentinel.nullptrSentinel

/-- Stream formatting state for the bool overload of print_default: the
output buffer and the boolalpha flag of the ostream. -/
structure StreamState where
  buf : String
  boolalpha : Bool
deriving DecidableEq, Repr

/-- os << std::boolalpha : sets the boolalpha flag. -/
def setBoolalpha (s : StreamState) : StreamState := { s with boolalpha := true }

/-- os << std::noboolalpha : clears the boolalpha flag, whatever it was. -/
def setNoboolalpha (s : StreamState) : StreamState := { s with boolalpha := false }

/-- os << (b : bool) : appends the alphabetic tokens when boolalpha is set,
the digits 1 and 0 otherwise. -/
def writeBool (s : StreamState) (b : Bool) : StreamState :=
  { s with
    buf := s.buf ++
      (if s.boolalpha then (if b then "true" else "false") else (if b then "1" else "0")) }

/-- The bool overload of print_default (lines 54-58):
os << std::boolalpha << v << std::noboolalpha. -/
def print_default_bool (s : StreamState) (b : Bool) : StreamState :=
  setNoboolalpha (writeBool (setBoolalpha s) b)

/- Helper lemmas about the channel projections. -/

theorem string_mk_append (l₁ l₂ : List Char) :
    String.mk (l₁ ++ l₂) = String.mk l₁ ++ String.mk l₂ := rfl

theorem allOut_append (a b : Out) : allOut (a ++ b) = allOut a ++ allOut b := by
  simp only [allOut, List.map_append, string_mk_append]

theorem allOut_emitTo (c : Chan) (s : String) : allOut (emitTo c s) = s := by
  simp only [allOut, emitTo, List.map_map]
  have h : (Prod.snd ∘ fun ch => ((c, ch) : Chan × Char)) = id := rfl
  rw [h, List.map_id]

theorem print_empty_name (v : Value) : print v "" = printVal v := by
  simp [print]

/- Claim theorems. -/

/-- Claim C1 (code bug): the source does not render an empty sequence as the
two characters left-bracket right-bracket. print_container (lines 60-71)
appends a separator after every element and then a backspace control
character before the closing bracket, so the empty sequence emits the three
characters left-bracket, backspace (0x08), right-bracket, and a sequence of
length 2 emits 2 separators plus a backspace rather than 1 separator. -/
theorem c1_empty_sequence_is_not_bracket_pair :
    allOut (print (Value.seq []) "") = "[\x08]" ∧
    allOut (print (Value.seq []) "") ≠ "[]" ∧
    allOut (print (Value.seq [Value.int 1, Value.int 2]) "") = "[1,2,\x08]" := by
  refine ⟨by decide, by decide, by decide⟩

/-- Claim C2 (code bug): not every character produced during an emission call
is appended to the given sink. The field label (line 144), the brackets and
separators of print_container (lines 64, 68, 70) and the null token of
print_pointer (line 93) are written to std::cout, so when the sink is
distinct from std::cout, emitting the vector 1,2,3 under the name nums
delivers only the digits to the sink while the label, brackets and commas go
to std::cout, and an empty pointer delivers nothing at all to the sink. -/
theorem c2_output_leaks_to_stdout :
    sinkOut (print (Value.seq [Value.int 1, Value.int 2, Value.int 3]) "nums") = "123" ∧
    coutOut (print (Value.seq [Value.int 1, Value.int 2, Value.int 3]) "nums")
      = "\"nums\":[,,,\x08]" ∧
    sinkOut (print (Value.nullable none) "") = "" ∧
    coutOut (print (Value.nullable none) "") = "null" := by
  refine ⟨by decide, by decide, by decide, by decide⟩

/-- Claim C3: the dispatch chain of print tests Sequence first and
short-circuits, so any type whose traits pass the container test (iterable
and not string-convertible) classifies as sequence - hence renders via
print_container as a bracketed list - no matter whether it also has a
serialize member, and it never classifies as selfDescribing. -/
theorem c3_sequence_checked_before_selfdescribing (t : TypeTraits)
    (hc : t.is_container = true) (hs : t.convertible_to_string = false) :
    classify t = Tag.sequence ∧ classify t ≠ Tag.selfDescribing := by
  constructor
  · simp [classify, hc, hs]
  · simp [classify, hc, hs]

/-- Witness for C3 at the concrete traits of a type that is both a container
and has a serialize member. -/
theorem c3_sequence_checked_before_selfdescribing_witness :
    classify ⟨true, false, false, false, true⟩ = Tag.sequence ∧
    classify ⟨true, false, false, false, true⟩ ≠ Tag.selfDescribing :=
  c3_sequence_checked_before_selfdescribing ⟨true, false, false, false, true⟩ rfl rfl

/-- Claim C4: std::string is a container under the detection idiom of the
source (it has begin, end and a member iterator) yet the string-convertible
test excludes it from the sequence branch, so it classifies as scalar, and a
string value renders as a quote-delimited token, never as a bracketed list
of its characters. -/
theorem c4_string_is_scalar_not_sequence :
    (cppTraits CppType.stringT).is_container = true ∧
    classify (cppTraits CppType.stringT) = Tag.scalar ∧
    ∀ s : String, allOut (print (Value.str s) "") = "\"" ++ s ++ "\"" := by
  refine ⟨rfl, rfl, fun s => ?_⟩
  rw [print_empty_name]
  show allOut (emitTo Chan.sink ("\"" ++ s ++ "\"")) = "\"" ++ s ++ "\""
  exact allOut_emitTo _ _

/-- Claim C5: a nullable value in the empty sentinel state, emitted with no
field name, produces exactly the four characters of the token null and
nothing else; the empty branch of print_pointer (lines 91-94) never consults
the inner value, so the inner classification is irrelevant. -/
theorem c5_empty_nullable_renders_null :
    allOut (print (Value.nullable none) "") = "null" := by decide

/-- Claim C6: emitting a present nullable with no field name produces the
very same trace as emitting the dereferenced inner value directly -
print_pointer (line 97) calls print(os, *v, {}) - and since the statement
holds for every inner value, it holds through arbitrary nesting depth. -/
theorem c6_present_nullable_is_transparent (v : Value) :
    print (Value.nullable (some v)) "" = print v "" := rfl

/-- Claim C7: makeNullValue picks the sentinel from the type alone: a type
assignable from std::nullopt_t gets the optional sentinel, any other type
the null-pointer sentinel; hence optional-of-T is tested against
std::nullopt while raw, unique and shared pointers are tested against
nullptr. -/
theorem c7_sentinel_chosen_statically_per_type (t : CppType) :
    makeNullValue (CppType.optionalT t) = Sentinel.nulloptSentinel ∧
    makeNullValue (CppType.rawPtrT t) = Sentinel.nullptrSentinel ∧
    makeNullValue (CppType.uniquePtrT t) = Sentinel.nullptrSentinel ∧
    makeNullValue (CppType.sharedPtrT t) = Sentinel.nullptrSentinel ∧
    (assignableFromNullopt t = true → makeNullValue t = Sentinel.nulloptSentinel) ∧
    (assignableFromNullopt t = false → makeNullValue t = Sentinel.nullptrSentinel) := by
  refine ⟨rfl, rfl, rfl, rfl, fun h => ?_, fun h => ?_⟩
  · simp [makeNullValue, h]
  · simp [makeNullValue, h]

/-- Witness for C7 at the concrete type int: optional of int gets the
optional sentinel and int itself, not assignable from nullopt, the pointer
sentinel. -/
theorem c7_sentinel_chosen_statically_per_type_witness :
    makeNullValue (CppType.optionalT CppType.intT) = Sentinel.nulloptSentinel ∧
    makeNullValue CppType.intT = Sentinel.nullptrSentinel :=
  ⟨(c7_sentinel_chosen_statically_per_type CppType.intT).1,
   (c7_sentinel_chosen_statically_per_type CppType.intT).2.2.2.2.2 rfl⟩

/-- Claim C8: with no field name, a boolean emits the literal alphabetic
token (never a digit), an integer emits its decimal textual form with no
quote characters added, and a string emits its characters wrapped in quote
delimiters. -/
theorem c8_scalar_token_forms :
    (∀ b : Bool, allOut (print (Value.bool b) "") = if b then "true" else "false") ∧
    (∀ i : Int, allOut (print (Value.int i) "") = toString i) ∧
    (∀ s : String, allOut (print (Value.str s) "") = "\"" ++ s ++ "\"") ∧
    allOut (print (Value.bool true) "") ≠ "1" ∧
    allOut (print (Value.bool false) "") ≠ "0" ∧
    allOut (print (Value.int 123) "") = "123" := by
  refine ⟨fun b => ?_, fun i => ?_, fun s => ?_, by decide, by decide, by decide⟩
  · rw [print_empty_name]
    show allOut (emitTo Chan.sink (if b then "true" else "false")) = _
    exact allOut_emitTo _ _
  · rw [print_empty_name]
    show allOut (emitTo Chan.sink (toString i)) = _
    exact allOut_emitTo _ _
  · rw [print_empty_name]
    show allOut (emitTo Chan.sink ("\"" ++ s ++ "\"")) = _
    exact allOut_emitTo _ _

/-- Claim C9: with a non-empty field name, the trace is exactly one label
prefix - quote, name, quote, colon - followed by the trace of emitting the
same value with no name; the dispatch never adds the label again because
every recursive call in print_container and print_pointer passes an empty
name. -/
theorem c9_label_written_once_then_consumed (v : Value) (n : String) (h : n ≠ "") :
    print v n = emitTo Chan.cout ("\"" ++ n ++ "\":") ++ print v "" ∧
    allOut (print v n) = "\"" ++ n ++ "\":" ++ allOut (print v "") := by
  have h1 : print v n = emitTo Chan.cout ("\"" ++ n ++ "\":") ++ print v "" := by
    rw [print_empty_name]
    simp [print, h]
  refine ⟨h1, ?_⟩
  rw [h1, allOut_append, allOut_emitTo]

/-- Witness for C9 at the value 5 under the name x. -/
theorem c9_label_written_once_then_consumed_witness :
    "x" ≠ "" ∧
    print (Value.int 5) "x" = emitTo Chan.cout ("\"" ++ "x" ++ "\":") ++ print (Value.int 5) "" :=
  ⟨by decide, (c9_label_written_once_then_consumed (Value.int 5) "x" (by decide)).1⟩

/-- Counterexample to claim C10 as stated: the bool overload of print_default
ends with std::noboolalpha, which clears the boolalpha flag unconditionally
rather than restoring it, so a stream that had boolalpha set before the call
does not get its formatting state back. -/
theorem c10_flag_not_restored_counterexample :
    (print_default_bool ⟨"", true⟩ true).boolalpha
      ≠ (⟨"", true⟩ : StreamState).boolalpha := by decide

/-- Amended claim C10: emitting a boolean always appends exactly the
alphabetic token true or false to the buffer and always leaves the boolalpha
flag cleared; hence the stream state is restored exactly when the flag was
already clear before the call, which is the default stream state. -/
theorem c10_boolalpha_cleared_token_appended (s : StreamState) (b : Bool) :
    (print_default_bool s b).buf = s.buf ++ (if b then "true" else "false") ∧
    (print_default_bool s b).boolalpha = false := by
  constructor
  · simp [print_default_bool, writeBool, setBoolalpha, setNoboolalpha]
  · rfl

end SerializationJson
